import Mathlib

/-!
Verification of the walk-summary pipeline (`stroll_story.py`, with `main.py`
an earlier near-duplicate iteration of the same functions).

The embedding below translates, from the source:
  * the GPX data model produced by the external parser (tracks containing
    segments containing points; waypoints; routes), with optional elevation,
    time and description per point, and optional names;
  * `convert_gpx_to_text`, the transcript builder;
  * `generate_map`, which flattens track/segment points, detects loops,
    colors markers and draws the polyline (the folium library itself is an
    external collaborator: the map is modelled as the structured document
    `MapDoc` holding exactly the data the source passes to folium);
  * `get_journal_prompt` and `get_image_prompt`, the prompt templates;
  * `build_output_html`, which base64-encodes the inline image payloads and
    splices the narrative and image blocks into the rendered map HTML with
    Python's `str.replace` (modelled exactly, including its replace-all and
    silent no-match behaviour, by a fuel-indexed scanner `replaceFuel`);
  * the `__main__` control flow of `stroll_story.py`, as `runStrollStory`,
    with the external parser, generation backend and map renderer supplied
    as parameters (they are out-of-scope collaborators).

Numeric GPX fields (Python floats) are modelled as exact rationals; Python
datetimes are carried as their rendered text.  The PIL decode/re-encode of an
image payload is an external codec and is modelled as carrying the payload
bytes through unchanged.
-/

/-! ## String basics -/

/-- Two strings with the same character data are equal. -/
theorem strEqOfData {a b : String} (h : a.data = b.data) : a = b := by
  cases a; cases b; exact congrArg String.mk h

/-! ## GPX data model

Shapes as produced by `gpxpy` and consumed by the source: every point carries
latitude/longitude and optional elevation, time and description; tracks and
routes carry an optional name.  Python renders a `None` name as the text
`"None"` inside an f-string, which `pyStrOpt` reproduces. -/

/-- A timestamp, carried as its rendered ISO text (`datetime.isoformat()`). -/
structure Timestamp where
  iso : String
deriving DecidableEq

/-- A GPX point (track point or route point): `point.latitude`,
`point.longitude`, optional `point.elevation`, `point.time`,
`point.description`. -/
structure GpxPoint where
  latitude : Rat
  longitude : Rat
  elevation : Option Rat
  time : Option Timestamp
  description : Option String
deriving DecidableEq

/-- A GPX track segment: `segment.points`. -/
structure GpxSegment where
  points : List GpxPoint
deriving DecidableEq

/-- A GPX track: `track.name`, `track.segments`. -/
structure GpxTrack where
  name : Option String
  segments : List GpxSegment
deriving DecidableEq

/-- A GPX waypoint: name, coordinates, optional elevation, time and
description. -/
structure GpxWaypoint where
  name : Option String
  latitude : Rat
  longitude : Rat
  elevation : Option Rat
  time : Option Timestamp
  description : Option String
deriving DecidableEq

/-- A GPX route: `route.name`, `route.points`. -/
structure GpxRoute where
  name : Option String
  points : List GpxPoint
deriving DecidableEq

/-- The parsed GPX document: `gpx.tracks`, `gpx.waypoints`, `gpx.routes`. -/
structure Gpx where
  tracks : List GpxTrack
  waypoints : List GpxWaypoint
  routes : List GpxRoute
deriving DecidableEq

/-- Python's f-string rendering of an optional string (`None` prints as
`"None"`). -/
def pyStrOpt : Option String → String
  | none => "None"
  | some s => s

/-! ## `convert_gpx_to_text` (stroll_story.py lines 89-145)

Each helper below reproduces one `output_text +=` block of the source.  Note
that the source appends the line-terminating `"\n"` of a point line only
inside the `if point.time is not None` branch. -/

/-- One track point's contribution to the transcript
(source lines 111-116). -/
def trackPointText (p : GpxPoint) : String :=
  "      Lat: " ++ toString p.latitude ++ ", Lon: " ++ toString p.longitude ++ ", "
  ++ (match p.elevation with
      | some e => "Elev: " ++ toString e ++ ", "
      | none => "")
  ++ (match p.time with
      | some t => "Time: " ++ t.iso ++ " UTC\n"
      | none => "")

/-- One segment's contribution to the transcript (source lines 109-116). -/
def segmentText (s : GpxSegment) : String :=
  "    Segment Points:\n" ++ String.join (s.points.map trackPointText)

/-- One track's contribution to the transcript (source lines 107-116). -/
def trackText (t : GpxTrack) : String :=
  "  Name: " ++ pyStrOpt t.name ++ "\n" ++ String.join (t.segments.map segmentText)

/-- The tracks section (source lines 105-116); empty when there are no
tracks, as `if gpx.tracks:` skips the section. -/
def tracksSection (ts : List GpxTrack) : String :=
  if ts.isEmpty then "" else "\nTracks:\n" ++ String.join (ts.map trackText)

/-- One waypoint's contribution to the transcript (source lines 121-128).
`if waypoint.description:` is Python truthiness: `None` and `""` are both
skipped. -/
def waypointText (w : GpxWaypoint) : String :=
  "  Name: " ++ pyStrOpt w.name ++ ", Lat: " ++ toString w.latitude
  ++ ", Lon: " ++ toString w.longitude ++ "\n"
  ++ (match w.elevation with
      | some e => "    Elev: " ++ toString e ++ "\n"
      | none => "")
  ++ (match w.time with
      | some t => "    Time: " ++ t.iso ++ " UTC\n"
      | none => "")
  ++ (match w.description with
      | some d => if d.isEmpty then "" else "    Description: " ++ d ++ "\n"
      | none => "")

/-- The waypoints section (source lines 119-128). -/
def waypointsSection (ws : List GpxWaypoint) : String :=
  if ws.isEmpty then "" else "\nWaypoints:\n" ++ String.join (ws.map waypointText)

/-- One route point's contribution to the transcript (source lines 136-143):
like a track point, plus a description line under the same truthiness test. -/
def routePointText (p : GpxPoint) : String :=
  "      Lat: " ++ toString p.latitude ++ ", Lon: " ++ toString p.longitude ++ ", "
  ++ (match p.elevation with
      | some e => "Elev: " ++ toString e ++ ", "
      | none => "")
  ++ (match p.time with
      | some t => "Time: " ++ t.iso ++ " UTC\n"
      | none => "")
  ++ (match p.description with
      | some d => if d.isEmpty then "" else "      Description: " ++ d ++ "\n"
      | none => "")

/-- One route's contribution to the transcript (source lines 133-143). -/
def routeText (r : GpxRoute) : String :=
  "  Name: " ++ pyStrOpt r.name ++ "\n" ++ "    Route Points:\n"
  ++ String.join (r.points.map routePointText)

/-- The routes section (source lines 131-143). -/
def routesSection (rs : List GpxRoute) : String :=
  if rs.isEmpty then "" else "\nRoutes:\n" ++ String.join (rs.map routeText)

/-- `convert_gpx_to_text` (source lines 89-145): header, then the three
sections in the source's fixed order.  Total — it always returns a string,
despite the docstring's claim that it may return `None`. -/
def convert_gpx_to_text (g : Gpx) : String :=
  "GPX Data:\n"
  ++ (tracksSection g.tracks ++ (waypointsSection g.waypoints ++ routesSection g.routes))

/-! ## `generate_map` (stroll_story.py lines 148-178)

The folium `Map`, `Marker`, `Icon` and `PolyLine` calls are external; the
model records, in `MapDoc`, exactly the data the source passes to them. -/

/-- The coordinate triples the source accumulates:
`(point.latitude, point.longitude, point.time)`. -/
abbrev CoordT := Rat × Rat × Option Timestamp

/-- Projection to the `(lat, lon)` pair. -/
def latlon (c : CoordT) : Rat × Rat := (c.1, c.2.1)

/-- The flattening loop of `generate_map` (source lines 150-154): only
track/segment points contribute; waypoints and routes are never read. -/
def extractCoordinates (g : Gpx) : List CoordT :=
  g.tracks.flatMap fun track =>
    track.segments.flatMap fun segment =>
      segment.points.map fun point => (point.latitude, point.longitude, point.time)

/-- `is_loop` (source lines 159-161): the `(lat, lon)` pairs of the first and
last coordinate compared for equality — time is not part of the comparison,
and elevation was already dropped by the flattening loop. -/
def coordsIsLoop (c0 : CoordT) (rest : List CoordT) : Bool :=
  decide (latlon c0 = latlon ((c0 :: rest).getLast (List.cons_ne_nil c0 rest)))

/-- The marker color choice (source lines 163-169): index 0 green; last index
red, or purple for a loop; all others blue.  With a single point, index 0
takes the `green` branch of the `if`/`elif` chain. -/
def markerColor (is_loop : Bool) (n i : Nat) : String :=
  if i = 0 then "green"
  else if i = n - 1 then (if is_loop then "purple" else "red")
  else "blue"

/-- Python's f-string rendering of the optional time in the marker popup
(`popup=f"Time: {coord[2]}"`; `None` prints as `"None"`). -/
def pyTimeStr : Option Timestamp → String
  | none => "None"
  | some t => t.iso

/-- One folium marker: position, popup text, icon color. -/
structure Marker where
  lat : Rat
  lon : Rat
  popup : String
  color : String
deriving DecidableEq

/-- One folium polyline: vertex list, color, weight. -/
structure Polyline where
  points : List (Rat × Rat)
  color : String
  weight : Nat
deriving DecidableEq

/-- The rendered map document, as the data handed to folium: center and zoom
of the `folium.Map` call, the added markers, the added polylines. -/
structure MapDoc where
  center : Rat × Rat
  zoom_start : Nat
  markers : List Marker
  polylines : List Polyline
deriving DecidableEq

/-- The body of `generate_map` on a non-empty coordinate list (source lines
156-178): center on the first point at zoom 14, one marker per coordinate in
order with the role color, and a single blue weight-5 polyline through all
coordinates in order. -/
def buildMapDoc (c0 : CoordT) (rest : List CoordT) : MapDoc :=
  let coordinates := c0 :: rest
  let is_loop := coordsIsLoop c0 rest
  { center := (c0.1, c0.2.1)
    zoom_start := 14
    markers := coordinates.enum.map fun ic =>
      { lat := ic.2.1
        lon := ic.2.2.1
        popup := "Time: " ++ pyTimeStr ic.2.2.2
        color := markerColor is_loop coordinates.length ic.1 }
    polylines := [{ points := coordinates.map latlon, color := "blue", weight := 5 }] }

/-- `generate_map` (source lines 148-178).  On an empty coordinate list the
source crashes on `coordinates[0]` (`IndexError`); that partiality is
modelled as `none`. -/
def generate_map (g : Gpx) : Option MapDoc :=
  match extractCoordinates g with
  | [] => none
  | c :: rest => some (buildMapDoc c rest)

/-! ## Prompt templates (stroll_story.py lines 50-65) -/

/-- `get_journal_prompt` (source lines 50-59), the f-string template with the
caller's `length`, `tone`, `focus` strings and the transcript spliced in.
`str(route_data)` is the identity on a string. -/
def get_journal_prompt (route_data tone focus length : String) : String :=
  "Summarize a walk as a " ++ length ++ " journal entry with a " ++ tone
  ++ " tone that followed these\nGPS coordinates with timestamp: " ++ route_data
  ++ " (don't report the coordinates or specific\ntimestamps back (start and end time okay). Try to focus on "
  ++ focus
  ++ " and otherwise identify one major\nlandmark, park, or body of water near each coordinate, and provide a fun fact about each (but don't\nexplicitly say fun fact each time). Comment on pace based on time and disctance covered. Incorpoate\nthe weather. Include a planned next walk based on the general area of this walk. Make the output\nHTML formatted. Don't provide anything after the HTML, nor a blurb at start, just the journal\nentry."

/-- `get_image_prompt` (source lines 62-65). -/
def get_image_prompt (journal_entry : String) : String :=
  "Generate a sketch-style image with no added text of one of the locations mentioned\nin this journal entry: "
  ++ journal_entry

/-! ## `build_output_html` (stroll_story.py lines 181-203)

The image response is modelled as its list of parts, each carrying its
optional `inline_data` bytes (`List Nat`, one entry per byte).  Python's
`str.replace(old, new)` replaces every non-overlapping occurrence from left
to right and returns the string unchanged when `old` does not occur; that is
modelled exactly by `replaceFuel`, a scanner whose fuel argument (always
instantiated with the string length, an upper bound on the number of scan
steps) makes the recursion structural. -/

/-- The standard base64 alphabet. -/
def base64Chars : List Char :=
  "ABCDEFGHIJKLMNOPQRSTUVWXYZabcdefghijklmnopqrstuvwxyz0123456789+/".data

/-- One base64 digit. -/
def b64Char (n : Nat) : Char := base64Chars.getD n 'A'

/-- RFC 4648 base64 of a byte list, with `=` padding
(`base64.b64encode(...).decode('utf-8')`). -/
def base64Encode : List Nat → String
  | [] => ""
  | [a] =>
    String.mk [b64Char (a % 256 / 4), b64Char (a % 4 * 16), '=', '=']
  | [a, b] =>
    String.mk [b64Char (a % 256 / 4), b64Char (a % 4 * 16 + b % 256 / 16),
               b64Char (b % 16 * 4), '=']
  | a :: b :: c :: rest =>
    String.mk [b64Char (a % 256 / 4), b64Char (a % 4 * 16 + b % 256 / 16),
               b64Char (b % 16 * 4 + c % 256 / 64), b64Char (c % 64)]
    ++ base64Encode rest

/-- The `<img>` block emitted for one inline image payload
(source line 192). -/
def imgTag (data : List Nat) : String :=
  "<img src=\"data:image/png;base64," ++ base64Encode data
  ++ "\" alt=\"Generated Image\"><br><br>"

/-- The `html_image` accumulation loop (source lines 185-194): one image
block per part that carries inline data, in part order; parts without data
contribute nothing (the source only prints a notice). -/
def htmlImage (parts : List (Option (List Nat))) : String :=
  String.join (parts.map fun part =>
    match part with
    | some data => imgTag data
    | none => "")

/-- The narrative block (source lines 200-201; the f-string's backslash line
continuation keeps the eight spaces of source indentation before the
narrative text). -/
def journalHtml (journal_entry : String) : String :=
  "<div style='font-family: Arial; margin: 20px;'><h2>Walk Summary</h2><p>        "
  ++ journal_entry ++ "</p></div>"

/-- Boolean prefix test on character lists. -/
def isPrefixList : List Char → List Char → Bool
  | [], _ => true
  | _ :: _, [] => false
  | a :: as, b :: bs => a == b && isPrefixList as bs

/-- Boolean substring-occurrence test on character lists: some suffix of the
target starts with the pattern. -/
def containsList (pat : List Char) : List Char → Bool
  | [] => pat.isEmpty
  | c :: rest => isPrefixList pat (c :: rest) || containsList pat rest

/-- Left-to-right non-overlapping replace-all scan, Python
`str.replace(pat, rep)` semantics.  The fuel bounds the number of scan steps;
every step consumes at least one character, so fuel equal to the target
length makes the bound inert. -/
def replaceFuel (pat rep : List Char) : Nat → List Char → List Char
  | _, [] => []
  | 0, s => s
  | fuel + 1, c :: rest =>
    if isPrefixList pat (c :: rest) then
      rep ++ replaceFuel pat rep fuel ((c :: rest).drop pat.length)
    else
      c :: replaceFuel pat rep fuel rest

/-- Python `s.replace(pat, rep)` for a non-empty pattern. -/
def pyReplace (s pat rep : String) : String :=
  ⟨replaceFuel pat.data rep.data s.data.length s.data⟩

/-- Boolean substring test on strings (Python `pat in s`). -/
def strContains (s pat : String) : Bool :=
  containsList pat.data s.data

/-- `build_output_html` (source lines 181-203): base64-embed the image parts,
build the narrative block, and splice both into the rendered map HTML with
`map_html.replace("<body>", f"<body>{journal_html}{html_image}")`.  The
folium rendering `m.get_root().render()` is external, so the function takes
the rendered map HTML directly. -/
def build_output_html (map_html journal_entry : String)
    (parts : List (Option (List Nat))) : String :=
  pyReplace map_html "<body>"
    ("<body>" ++ journalHtml journal_entry ++ htmlImage parts)

/-! ## The `__main__` pipeline of stroll_story.py (lines 206-276)

External effects are reified: the parser's outcome is the `Option Gpx` it
returns (`parse_gpx` returns `None` for a missing or malformed file), the
generation backend's two responses and the folium renderer are parameters,
and the observable actions (generation calls, the final file write) are
recorded as events. -/

/-- Observable pipeline actions. -/
inductive PipelineEvent where
  | generationCall
  | fileWrite
deriving DecidableEq

/-- The outcome of one run: the uncaught error if any, the observable events
in order, and the written artifact if any. -/
structure RunResult where
  error : Option String
  events : List PipelineEvent
  output : Option String
deriving DecidableEq

/-- The `__main__` control flow of stroll_story.py: check the API key (raise
`ValueError` if unset), check the parse result (raise `ValueError` if
`parse_gpx` returned `None` — before any generation call), then make the two
generation calls, build the map (an empty coordinate list would raise
`IndexError` on `coordinates[0]` after the generation calls), assemble the
HTML and write it. -/
def runStrollStory (apiKey : Option String) (gpxPath : String) (gpx_data : Option Gpx)
    (journalText : String) (imageParts : List (Option (List Nat)))
    (renderHtml : MapDoc → String) : RunResult :=
  match apiKey with
  | none =>
    { error := some "GEMINI_API_KEY environment variable not set."
      events := [], output := none }
  | some _ =>
    match gpx_data with
    | none =>
      { error := some ("Unable to parse GPX data in '" ++ gpxPath ++ "'.")
        events := [], output := none }
    | some g =>
      match generate_map g with
      | none =>
        { error := some "IndexError: list index out of range"
          events := [.generationCall, .generationCall], output := none }
      | some doc =>
        { error := none
          events := [.generationCall, .generationCall, .fileWrite]
          output := some (build_output_html (renderHtml doc) journalText imageParts) }

/-! ## Helper lemmas: prefix, occurrence and replace -/

/-- An empty pattern occurs in every string. -/
theorem containsList_nil_pat : ∀ s : List Char, containsList [] s = true := by
  intro s
  cases s <;> simp [containsList, isPrefixList]

/-- A list is a prefix of itself followed by anything. -/
theorem isPrefixList_append_self : ∀ l t : List Char, isPrefixList l (l ++ t) = true := by
  intro l
  induction l with
  | nil => intro t; rfl
  | cons a as ih => intro t; simp [isPrefixList, ih]

/-- Extending the target to the right preserves the prefix test. -/
theorem isPrefixList_mono :
    ∀ (pat l t : List Char), isPrefixList pat l = true → isPrefixList pat (l ++ t) = true := by
  intro pat
  induction pat with
  | nil => intro l t _; rfl
  | cons a as ih =>
    intro l t h
    cases l with
    | nil => simp [isPrefixList] at h
    | cons b bs =>
      simp [isPrefixList] at h ⊢
      exact ⟨h.1, ih bs t h.2⟩

/-- No-straddle: a pattern that does not contain the character `p` cannot be
a prefix of `y ++ p :: z` without already being a prefix of `y`. -/
theorem isPrefixList_no_straddle (p : Char) :
    ∀ (ps y z : List Char), p ∉ ps → isPrefixList ps (y ++ p :: z) = true →
      isPrefixList ps y = true := by
  intro ps
  induction ps with
  | nil => intro y z _ _; rfl
  | cons q qs ih =>
    intro y z hp h
    have hpq : p ≠ q := fun he => hp (by simp [he])
    have hqs : p ∉ qs := fun hm => hp (List.mem_cons_of_mem q hm)
    cases y with
    | nil =>
      simp [isPrefixList] at h
      exact absurd h.1.symm hpq
    | cons b y' =>
      simp [isPrefixList] at h ⊢
      exact ⟨h.1, ih y' z hqs h.2⟩

/-- An occurrence inside the left part stays an occurrence of the whole. -/
theorem containsList_append_left :
    ∀ (pat a b : List Char), containsList pat a = true → containsList pat (a ++ b) = true := by
  intro pat a
  induction a with
  | nil =>
    intro b h
    simp [containsList, List.isEmpty_iff] at h
    subst h
    exact containsList_nil_pat b
  | cons c a' ih =>
    intro b h
    simp [containsList] at h ⊢
    rcases h with h | h
    · exact Or.inl (isPrefixList_mono pat (c :: a') b h)
    · exact Or.inr (ih b h)

/-- An occurrence inside the right part stays an occurrence of the whole. -/
theorem containsList_append_right :
    ∀ (pat a b : List Char), containsList pat b = true → containsList pat (a ++ b) = true := by
  intro pat a
  induction a with
  | nil => intro b h; simpa using h
  | cons c a' ih =>
    intro b h
    simp [containsList]
    exact Or.inr (ih b h)

/-- When the pattern does not occur, the scan returns the target unchanged
(for any fuel). -/
theorem replaceFuel_no_occurrence (pat rep : List Char) :
    ∀ (fuel : Nat) (s : List Char), containsList pat s = false →
      replaceFuel pat rep fuel s = s := by
  intro fuel
  induction fuel with
  | zero =>
    intro s _
    cases s <;> rfl
  | succ n ih =>
    intro s h
    cases s with
    | nil => rfl
    | cons c rest =>
      have h' : isPrefixList pat (c :: rest) = false ∧ containsList pat rest = false := by
        simpa [containsList] using h
      simp [replaceFuel, h'.1, ih rest h'.2]

/-- Any fuel at least the target length gives the same scan result
(non-empty pattern). -/
theorem replaceFuel_fuel_irrelevant (pat rep : List Char) (hpat : pat ≠ []) :
    ∀ (f g : Nat) (s : List Char), s.length ≤ f → s.length ≤ g →
      replaceFuel pat rep f s = replaceFuel pat rep g s := by
  have hpl : 1 ≤ pat.length := by
    cases pat with
    | nil => exact absurd rfl hpat
    | cons a as => simp
  intro f
  induction f with
  | zero =>
    intro g s hf _
    have hs : s = [] := List.eq_nil_of_length_eq_zero (Nat.le_zero.mp hf)
    subst hs
    cases g <;> rfl
  | succ n ih =>
    intro g s hf hg
    cases s with
    | nil => cases g <;> rfl
    | cons c rest =>
      cases g with
      | zero => simp at hg
      | succ m =>
        simp only [List.length_cons] at hf hg
        by_cases hp : isPrefixList pat (c :: rest) = true
        · have hd : ((c :: rest).drop pat.length).length ≤ n := by
            simp [List.length_drop]
            omega
          have hd' : ((c :: rest).drop pat.length).length ≤ m := by
            simp [List.length_drop]
            omega
          simp [replaceFuel, hp, ih m ((c :: rest).drop pat.length) hd hd']
        · have hp' : isPrefixList pat (c :: rest) = false := by simpa using hp
          have hr : rest.length ≤ n := by omega
          have hr' : rest.length ≤ m := by omega
          simp [replaceFuel, hp', ih m rest hr hr']

/-- The splice property: scanning `pre ++ pat ++ suf` where the (non-empty,
no-straddle) pattern does not occur in `pre` replaces exactly the explicit
occurrence and continues in `suf`. -/
theorem replaceFuel_splice (p : Char) (ps rep suf : List Char) (hps : p ∉ ps) :
    ∀ (pre : List Char) (fuel : Nat),
      (pre ++ p :: (ps ++ suf)).length ≤ fuel →
      containsList (p :: ps) pre = false →
      replaceFuel (p :: ps) rep fuel (pre ++ p :: (ps ++ suf)) =
        pre ++ rep ++ replaceFuel (p :: ps) rep suf.length suf := by
  intro pre
  induction pre with
  | nil =>
    intro fuel hf _
    cases fuel with
    | zero => simp at hf
    | succ n =>
      have hpre : isPrefixList (p :: ps) (p :: (ps ++ suf)) = true := by
        have := isPrefixList_append_self (p :: ps) suf
        simpa using this
      have hdrop : (p :: (ps ++ suf)).drop (p :: ps).length = suf :=
        List.drop_left (p :: ps) suf
      have hsl : suf.length ≤ n := by
        simp at hf
        omega
      simp only [List.nil_append]
      rw [replaceFuel, if_pos hpre, hdrop]
      rw [replaceFuel_fuel_irrelevant (p :: ps) rep (List.cons_ne_nil p ps) n suf.length suf hsl le_rfl]
  | cons a pre' ih =>
    intro fuel hf hc
    have hc' : isPrefixList (p :: ps) (a :: pre') = false ∧ containsList (p :: ps) pre' = false := by
      simpa [containsList] using hc
    cases fuel with
    | zero => simp at hf
    | succ n =>
      have hcond : isPrefixList (p :: ps) (a :: (pre' ++ p :: (ps ++ suf))) = false := by
        by_contra hne
        have htrue : isPrefixList (p :: ps) (a :: (pre' ++ p :: (ps ++ suf))) = true := by
          simpa using hne
        simp [isPrefixList] at htrue
        have := isPrefixList_no_straddle p ps pre' (ps ++ suf) hps htrue.2
        simp [isPrefixList, htrue.1, this] at hc'
      have hlen : (pre' ++ p :: (ps ++ suf)).length ≤ n := by
        simp at hf ⊢
        omega
      have step := ih n hlen hc'.2
      simp only [List.cons_append]
      rw [replaceFuel, if_neg (by simp [hcond]), step]

/-- String-level wrapper: Python `replace` on a string that does not contain
the pattern returns it unchanged. -/
theorem pyReplace_no_occ (s pat rep : String) (h : strContains s pat = false) :
    pyReplace s pat rep = s :=
  strEqOfData (replaceFuel_no_occurrence pat.data rep.data s.data.length s.data h)

/-- String-level splice for the `"<body>"` pattern: replacing in
`pre ++ "<body>" ++ suf` where `pre` does not contain the marker substitutes
the explicit occurrence and continues scanning `suf`. -/
theorem pyReplace_body_splice (pre suf rep : String)
    (hpre : strContains pre "<body>" = false) :
    pyReplace (pre ++ "<body>" ++ suf) "<body>" rep
      = pre ++ rep ++ pyReplace suf "<body>" rep := by
  apply strEqOfData
  have hps : '<' ∉ "body>".data := by decide
  have hsplit : (pre ++ "<body>" ++ suf).data
      = pre.data ++ '<' :: ("body>".data ++ suf.data) := by
    rw [String.data_append, String.data_append, List.append_assoc]
    rfl
  show replaceFuel "<body>".data rep.data
      (pre ++ "<body>" ++ suf).data.length (pre ++ "<body>" ++ suf).data
      = (pre ++ rep ++ pyReplace suf "<body>" rep).data
  rw [hsplit, String.data_append, String.data_append]
  have hpat : ("<body>".data : List Char) = '<' :: "body>".data := rfl
  rw [hpat]
  rw [replaceFuel_splice '<' "body>".data rep.data suf.data hps pre.data
      (pre.data ++ '<' :: ("body>".data ++ suf.data)).length le_rfl hpre]
  rfl

/-! ## Helper lemmas: marker colors -/

/-- Mapping `if i = 0 then s else t` over `range (k+1)` gives `s` then `k`
copies of `t`. -/
theorem range_map_if_zero (s t : String) :
    ∀ k : Nat, (List.range (k + 1)).map (fun i => if i = 0 then s else t)
      = s :: List.replicate k t := by
  intro k
  induction k with
  | zero => rfl
  | succ m ih =>
    rw [show m + 1 + 1 = (m + 1) + 1 from rfl, List.range_succ, List.map_append, ih]
    simp [List.replicate_succ']

/-- The color sequence of an `n ≥ 2` point route: green, `n - 2` blues, then
red (or purple for a loop). -/
theorem markerColors_closed (loop : Bool) (m : Nat) :
    (List.range (m + 2)).map (markerColor loop (m + 2))
      = "green" :: List.replicate m "blue" ++ [if loop then "purple" else "red"] := by
  rw [show ((m : Nat) + 2) = (m + 1) + 1 from rfl, List.range_succ, List.map_append]
  have h1 : (List.range (m + 1)).map (markerColor loop (m + 1 + 1))
      = (List.range (m + 1)).map (fun i => if i = 0 then "green" else "blue") := by
    apply List.map_congr_left
    intro i hi
    have hlt : i < m + 1 := List.mem_range.mp hi
    unfold markerColor
    by_cases h0 : i = 0
    · simp [h0]
    · have hne : ¬ (i = m + 1) := by omega
      simp [h0, hne]
  rw [h1, range_map_if_zero]
  have h2 : markerColor loop (m + 1 + 1) (m + 1) = if loop then "purple" else "red" := by
    unfold markerColor
    have hne : ¬ (m + 1 = 0) := by omega
    simp [hne]
  simp [h2]

/-- The colors of the generated markers are exactly the `markerColor`
sequence over the coordinate indices. -/
theorem buildMapDoc_colors (c0 : CoordT) (rest : List CoordT) :
    (buildMapDoc c0 rest).markers.map (fun mk => mk.color)
      = (List.range (c0 :: rest).length).map
          (markerColor (coordsIsLoop c0 rest) (c0 :: rest).length) := by
  unfold buildMapDoc
  simp only [List.map_map]
  rw [show ((fun mk => Marker.color mk) ∘ fun (ic : Nat × CoordT) =>
        ({ lat := ic.2.1, lon := ic.2.2.1, popup := "Time: " ++ pyTimeStr ic.2.2.2,
           color := markerColor (coordsIsLoop c0 rest) (c0 :: rest).length ic.1 } : Marker))
      = (markerColor (coordsIsLoop c0 rest) (c0 :: rest).length) ∘ Prod.fst from rfl]
  rw [← List.map_map, List.enum_map_fst]

/-- One marker per coordinate. -/
theorem buildMapDoc_markers_length (c0 : CoordT) (rest : List CoordT) :
    (buildMapDoc c0 rest).markers.length = (c0 :: rest).length := by
  unfold buildMapDoc
  simp [List.enum_length]

/-! ## Claim theorems -/

/-- A two-point track whose first point has no timestamp — the input on which
the transcript builder merges two points into one line. -/
def gpxMissingTime : Gpx :=
  { tracks := [{ name := some "Morning Walk"
                 segments := [{ points :=
                   [{ latitude := 1, longitude := 2, elevation := none,
                      time := none, description := none },
                    { latitude := 3, longitude := 4, elevation := none,
                      time := some ⟨"2025-05-10T09:00:00"⟩, description := none }] }] }]
    waypoints := []
    routes := [] }

/-- C1: the claim says the transcript builder emits exactly one transcript
line per point, with elevation and time omitted when absent.  The source
appends the terminating newline only inside the `if point.time is not None`
branch, so a point without a timestamp is left unterminated and the next
point's text continues on the same line: on `gpxMissingTime` the two segment
points share a single `Lat:`/`Lon:` line, as the evaluated transcript below
exhibits.  The second conjunct isolates the defect: a timeless point's
contribution ends without `"\n"`. -/
theorem convert_gpx_missing_time_merges_lines :
    convert_gpx_to_text gpxMissingTime
      = "GPX Data:\n\nTracks:\n  Name: Morning Walk\n    Segment Points:\n      Lat: 1, Lon: 2,       Lat: 3, Lon: 4, Time: 2025-05-10T09:00:00 UTC\n"
    ∧ trackPointText
        { latitude := 1, longitude := 2, elevation := none,
          time := none, description := none }
      = "      Lat: 1, Lon: 2, " := by
  exact ⟨rfl, rfl⟩

/-- C8: when `parse_gpx` returns `None` (nonexistent or malformed input
file), the run raises the parse `ValueError` and terminates with no
generation call made and no output written — for every API key, backend
response and renderer. -/
theorem parse_failure_aborts_run (k gpxPath journalText : String)
    (imageParts : List (Option (List Nat))) (renderHtml : MapDoc → String) :
    runStrollStory (some k) gpxPath none journalText imageParts renderHtml
      = { error := some ("Unable to parse GPX data in '" ++ gpxPath ++ "'.")
          events := [], output := none } := rfl

/-- C9: the two prompt builders are pure string templates — identical
arguments yield byte-identical prompt strings. -/
theorem prompt_builders_deterministic
    (r1 r2 t1 t2 f1 f2 l1 l2 j1 j2 : String)
    (hr : r1 = r2) (ht : t1 = t2) (hf : f1 = f2) (hl : l1 = l2) (hj : j1 = j2) :
    get_journal_prompt r1 t1 f1 l1 = get_journal_prompt r2 t2 f2 l2
    ∧ get_image_prompt j1 = get_image_prompt j2 := by
  subst hr; subst ht; subst hf; subst hl; subst hj
  exact ⟨rfl, rfl⟩

/-- Witness for C9 at concrete arguments. -/
theorem prompt_builders_deterministic_witness :
    get_journal_prompt "GPX Data:\n" "neutral" "landmarks" "medium"
      = get_journal_prompt "GPX Data:\n" "neutral" "landmarks" "medium"
    ∧ get_image_prompt "A fine walk." = get_image_prompt "A fine walk." :=
  prompt_builders_deterministic "GPX Data:\n" "GPX Data:\n" "neutral" "neutral"
    "landmarks" "landmarks" "medium" "medium" "A fine walk." "A fine walk."
    rfl rfl rfl rfl rfl

/-- C10: the transcript builder is total — on every input, including the
empty GPX document, it returns a string starting with the `GPX Data:` header
(it can never return `None`, contrary to its docstring; in the embedding its
type is `Gpx → String`). -/
theorem convert_gpx_to_text_total_header :
    (∀ g : Gpx, ∃ rest : String, convert_gpx_to_text g = "GPX Data:" ++ rest)
    ∧ convert_gpx_to_text ⟨[], [], []⟩ = "GPX Data:\n" := by
  constructor
  · intro g
    refine ⟨"\n" ++ (tracksSection g.tracks
      ++ (waypointsSection g.waypoints ++ routesSection g.routes)), ?_⟩
    apply strEqOfData
    show ("GPX Data:\n" ++ (tracksSection g.tracks
      ++ (waypointsSection g.waypoints ++ routesSection g.routes))).data = _
    simp only [String.data_append]
    rw [← List.append_assoc]
    rfl
  · rfl

/-- The `(lat, lon)` pair of the last coordinate equals the last entry of the
`(lat, lon)` projection. -/
theorem latlon_getLast (c0 : CoordT) (rest : List CoordT) :
    latlon ((c0 :: rest).getLast (List.cons_ne_nil c0 rest))
      = ((c0 :: rest).map latlon).getLast (by simp) :=
  (List.getLast_map latlon (c0 :: rest) (by simp)).symm

/-- Equal lists have equal last elements. -/
theorem getLast_congr {α : Type} {l1 l2 : List α} (h1 : l1 ≠ []) (h2 : l2 ≠ [])
    (he : l1 = l2) : l1.getLast h1 = l2.getLast h2 := by
  subst he; rfl

/-- Applying a function to every point's elevation, leaving all other fields
unchanged. -/
def gpxMapElevations (f : Option Rat → Option Rat) (g : Gpx) : Gpx :=
  { g with tracks := g.tracks.map fun t =>
      { t with segments := t.segments.map fun s =>
          { s with points := s.points.map fun p => { p with elevation := f p.elevation } } } }

/-- Changing elevations does not change the flattened coordinate triples at
all (the flattening keeps only latitude, longitude and time). -/
theorem extractCoordinates_mapElevations (f : Option Rat → Option Rat) (g : Gpx) :
    extractCoordinates (gpxMapElevations f g) = extractCoordinates g := by
  unfold extractCoordinates gpxMapElevations
  simp only [List.flatMap_map, List.map_map]
  rfl

/-- C3: the source computes `is_loop` by comparing exactly the `(lat, lon)`
pairs of the first and last flattened coordinate (first conjunct), so any two
routes with the same per-point `(lat, lon)` projection — hence differing at
most in timestamps — classify identically (second conjunct), and changing
elevations does not even reach the comparison, since the flattening drops
them (third conjunct). -/
theorem loop_detection_latlon_only (c0 : CoordT) (rest : List CoordT)
    (c0' : CoordT) (rest' : List CoordT)
    (f : Option Rat → Option Rat) (g : Gpx)
    (hproj : (c0 :: rest).map latlon = (c0' :: rest').map latlon) :
    (coordsIsLoop c0 rest = true ↔
      latlon c0 = latlon ((c0 :: rest).getLast (List.cons_ne_nil c0 rest)))
    ∧ coordsIsLoop c0 rest = coordsIsLoop c0' rest'
    ∧ extractCoordinates (gpxMapElevations f g) = extractCoordinates g := by
  refine ⟨by simp [coordsIsLoop], ?_, extractCoordinates_mapElevations f g⟩
  unfold coordsIsLoop
  have hhead : latlon c0 = latlon c0' := by
    have := congrArg (fun l => l.head?) hproj
    simpa using this
  have hlast : latlon ((c0 :: rest).getLast (List.cons_ne_nil c0 rest))
      = latlon ((c0' :: rest').getLast (List.cons_ne_nil c0' rest')) := by
    rw [latlon_getLast, latlon_getLast]
    exact getLast_congr (by simp) (by simp) hproj
  rw [hhead, hlast]

/-- Witness input for C3: same `(lat, lon)` sequence, different timestamps. -/
def coordsLoopA : List CoordT := [(1, 2, none), (1, 2, some ⟨"2025-05-10T10:00:00"⟩)]

/-- Witness input for C3: the companion list with timestamps moved around. -/
def coordsLoopB : List CoordT := [(1, 2, some ⟨"2025-05-10T11:30:00"⟩), (1, 2, none)]

/-- Witness for C3: two concrete two-point loops with identical coordinates
but different timestamps classify identically, and elevation rewriting leaves
the flattened coordinates of a concrete document unchanged. -/
theorem loop_detection_latlon_only_witness :
    ([(1, 2, none), (1, 2, some ⟨"2025-05-10T10:00:00"⟩)] : List CoordT).map latlon
      = ([(1, 2, some ⟨"2025-05-10T11:30:00"⟩), (1, 2, none)] : List CoordT).map latlon
    ∧ ((coordsIsLoop (1, 2, none) [(1, 2, some ⟨"2025-05-10T10:00:00"⟩)] = true ↔
        latlon ((1, 2, none) : CoordT)
          = latlon ((((1 : Rat), (2 : Rat), (none : Option Timestamp)) ::
              [((1 : Rat), (2 : Rat), some (⟨"2025-05-10T10:00:00"⟩ : Timestamp))]).getLast
                (List.cons_ne_nil _ _)))
      ∧ coordsIsLoop (1, 2, none) [(1, 2, some ⟨"2025-05-10T10:00:00"⟩)]
          = coordsIsLoop (1, 2, some ⟨"2025-05-10T11:30:00"⟩) [(1, 2, none)]
      ∧ extractCoordinates (gpxMapElevations (fun _ => none) gpxMissingTime)
          = extractCoordinates gpxMissingTime) :=
  ⟨by decide,
   loop_detection_latlon_only (1, 2, none) [(1, 2, some ⟨"2025-05-10T10:00:00"⟩)]
     (1, 2, some ⟨"2025-05-10T11:30:00"⟩) [(1, 2, none)]
     (fun _ => none) gpxMissingTime (by decide)⟩

/-- C4: for every route (non-empty flattened coordinate list), the map build
succeeds (classification never raises), produces one marker per point, and
the role colors are exactly: green at index 0 (the unique start), the
end-marker color at the last index, blue everywhere in between; for a
single-point route the `if`/`elif` chain deterministically gives the sole
point the start color green, and the document has exactly one marker. -/
theorem classify_roles (g : Gpx) (c0 : CoordT) (rest : List CoordT)
    (h : extractCoordinates g = c0 :: rest) :
    generate_map g = some (buildMapDoc c0 rest)
    ∧ (buildMapDoc c0 rest).markers.length = (c0 :: rest).length
    ∧ (rest = [] → (buildMapDoc c0 rest).markers.map (fun mk => mk.color) = ["green"])
    ∧ (rest ≠ [] → (buildMapDoc c0 rest).markers.map (fun mk => mk.color)
        = "green" :: List.replicate (rest.length - 1) "blue"
          ++ [if coordsIsLoop c0 rest then "purple" else "red"]) := by
  refine ⟨?_, buildMapDoc_markers_length c0 rest, ?_, ?_⟩
  · unfold generate_map
    rw [h]
  · intro hrest
    subst hrest
    rw [buildMapDoc_colors]
    rfl
  · intro hrest
    obtain ⟨r0, rest', rfl⟩ : ∃ r0 rest', rest = r0 :: rest' := by
      cases rest with
      | nil => exact absurd rfl hrest
      | cons r0 rest' => exact ⟨r0, rest', rfl⟩
    rw [buildMapDoc_colors]
    rw [show (c0 :: r0 :: rest').length = rest'.length + 2 by simp]
    rw [markerColors_closed]
    simp

/-- The single-point input for the C4 witness. -/
def gpxSinglePoint : Gpx :=
  { tracks := [{ name := some "Lone"
                 segments := [{ points :=
                   [{ latitude := 5, longitude := 6, elevation := some 10,
                      time := some ⟨"2025-05-10T08:00:00"⟩, description := none }] }] }]
    waypoints := []
    routes := [] }

/-- Witness for C4 on the degenerate single-point route: the map build
succeeds, there is exactly one marker, and its color is the start color. -/
theorem classify_roles_witness :
    generate_map gpxSinglePoint
      = some (buildMapDoc (5, 6, some ⟨"2025-05-10T08:00:00"⟩) [])
    ∧ (buildMapDoc ((5 : Rat), (6 : Rat), some (⟨"2025-05-10T08:00:00"⟩ : Timestamp)) []).markers.length = 1
    ∧ (buildMapDoc ((5 : Rat), (6 : Rat), some (⟨"2025-05-10T08:00:00"⟩ : Timestamp)) []).markers.map
        (fun mk => mk.color) = ["green"] :=
  ⟨(classify_roles gpxSinglePoint (5, 6, some ⟨"2025-05-10T08:00:00"⟩) [] rfl).1,
   (classify_roles gpxSinglePoint (5, 6, some ⟨"2025-05-10T08:00:00"⟩) [] rfl).2.1,
   (classify_roles gpxSinglePoint (5, 6, some ⟨"2025-05-10T08:00:00"⟩) [] rfl).2.2.1 rfl⟩

/-- C5: the renderer centers the map on the first point (zoom 14), draws one
polyline through all points in route order, emits one marker per point, and
colors them green at the start, blue in between, and red at the end — purple
instead of red exactly when the route is a loop. -/
theorem render_map_document (g : Gpx) (c0 : CoordT) (rest : List CoordT)
    (h : extractCoordinates g = c0 :: rest) (hrest : rest ≠ []) :
    generate_map g = some (buildMapDoc c0 rest)
    ∧ (buildMapDoc c0 rest).center = latlon c0
    ∧ (buildMapDoc c0 rest).zoom_start = 14
    ∧ (buildMapDoc c0 rest).polylines
        = [{ points := (c0 :: rest).map latlon, color := "blue", weight := 5 }]
    ∧ (buildMapDoc c0 rest).markers.length = (c0 :: rest).length
    ∧ (buildMapDoc c0 rest).markers.map (fun mk => mk.color)
        = "green" :: List.replicate (rest.length - 1) "blue"
          ++ [if coordsIsLoop c0 rest then "purple" else "red"] := by
  refine ⟨?_, rfl, rfl, rfl, buildMapDoc_markers_length c0 rest, ?_⟩
  · unfold generate_map
    rw [h]
  · obtain ⟨r0, rest', rfl⟩ : ∃ r0 rest', rest = r0 :: rest' := by
      cases rest with
      | nil => exact absurd rfl hrest
      | cons r0 rest' => exact ⟨r0, rest', rfl⟩
    rw [buildMapDoc_colors]
    rw [show (c0 :: r0 :: rest').length = rest'.length + 2 by simp]
    rw [markerColors_closed]
    simp

/-- The six-point non-loop input for the C5 witness (first and last
coordinates differ). -/
def gpxSixPoints : Gpx :=
  { tracks := [{ name := some "Six"
                 segments := [{ points :=
                   [{ latitude := 1, longitude := 11, elevation := none,
                      time := some ⟨"2025-05-10T08:00:00"⟩, description := none },
                    { latitude := 2, longitude := 12, elevation := none,
                      time := some ⟨"2025-05-10T08:10:00"⟩, description := none },
                    { latitude := 3, longitude := 13, elevation := none,
                      time := some ⟨"2025-05-10T08:20:00"⟩, description := none },
                    { latitude := 4, longitude := 14, elevation := none,
                      time := some ⟨"2025-05-10T08:30:00"⟩, description := none },
                    { latitude := 5, longitude := 15, elevation := none,
                      time := some ⟨"2025-05-10T08:40:00"⟩, description := none },
                    { latitude := 6, longitude := 16, elevation := none,
                      time := some ⟨"2025-05-10T08:50:00"⟩, description := none }] }] }]
    waypoints := []
    routes := [] }

/-- The flattened witness coordinates of `gpxSixPoints` after the head. -/
def sixRest : List CoordT :=
  [(2, 12, some ⟨"2025-05-10T08:10:00"⟩), (3, 13, some ⟨"2025-05-10T08:20:00"⟩),
   (4, 14, some ⟨"2025-05-10T08:30:00"⟩), (5, 15, some ⟨"2025-05-10T08:40:00"⟩),
   (6, 16, some ⟨"2025-05-10T08:50:00"⟩)]

/-- Witness for C5 on the six-point non-loop route: map build succeeds,
centered on point 0, six markers colored green/blue/blue/blue/blue/red, and
one polyline with the six vertices in order. -/
theorem render_map_document_witness :
    generate_map gpxSixPoints
      = some (buildMapDoc (1, 11, some ⟨"2025-05-10T08:00:00"⟩) sixRest)
    ∧ (buildMapDoc ((1 : Rat), (11 : Rat), some (⟨"2025-05-10T08:00:00"⟩ : Timestamp)) sixRest).center
        = (1, 11)
    ∧ (buildMapDoc ((1 : Rat), (11 : Rat), some (⟨"2025-05-10T08:00:00"⟩ : Timestamp)) sixRest).markers.map
        (fun mk => mk.color) = ["green", "blue", "blue", "blue", "blue", "red"]
    ∧ (buildMapDoc ((1 : Rat), (11 : Rat), some (⟨"2025-05-10T08:00:00"⟩ : Timestamp)) sixRest).markers.length = 6
    ∧ (buildMapDoc ((1 : Rat), (11 : Rat), some (⟨"2025-05-10T08:00:00"⟩ : Timestamp)) sixRest).polylines
        = [{ points := [(1, 11), (2, 12), (3, 13), (4, 14), (5, 15), (6, 16)],
             color := "blue", weight := 5 }] := by
  have h := render_map_document gpxSixPoints (1, 11, some ⟨"2025-05-10T08:00:00"⟩) sixRest
    rfl (by decide)
  refine ⟨h.1, h.2.1, ?_, h.2.2.2.2.1, ?_⟩
  · rw [h.2.2.2.2.2]
    decide
  · rw [h.2.2.2.1]
    decide

/-- C7: the coordinate sequence used for the map is built only from
track/segment points — erasing all waypoints and routes changes neither the
flattened coordinates nor the generated map document — while the transcript
(the narrative input) does carry the waypoints and routes sections whenever
they are present. -/
theorem map_from_tracks_only (g : Gpx) (hw : g.waypoints ≠ []) (hr : g.routes ≠ []) :
    generate_map g = generate_map { tracks := g.tracks, waypoints := [], routes := [] }
    ∧ extractCoordinates g
        = extractCoordinates { tracks := g.tracks, waypoints := [], routes := [] }
    ∧ strContains (convert_gpx_to_text g) "Waypoints:" = true
    ∧ strContains (convert_gpx_to_text g) "Routes:" = true := by
  have hwsec : waypointsSection g.waypoints
      = "\nWaypoints:\n" ++ String.join (g.waypoints.map waypointText) := by
    unfold waypointsSection
    rw [if_neg (by simpa [List.isEmpty_iff] using hw)]
  have hrsec : routesSection g.routes
      = "\nRoutes:\n" ++ String.join (g.routes.map routeText) := by
    unfold routesSection
    rw [if_neg (by simpa [List.isEmpty_iff] using hr)]
  refine ⟨rfl, rfl, ?_, ?_⟩
  · show containsList "Waypoints:".data (convert_gpx_to_text g).data = true
    unfold convert_gpx_to_text
    rw [String.data_append]
    apply containsList_append_right
    rw [String.data_append]
    apply containsList_append_right
    rw [String.data_append]
    apply containsList_append_left
    rw [hwsec, String.data_append]
    apply containsList_append_left
    decide
  · show containsList "Routes:".data (convert_gpx_to_text g).data = true
    unfold convert_gpx_to_text
    rw [String.data_append]
    apply containsList_append_right
    rw [String.data_append]
    apply containsList_append_right
    rw [String.data_append]
    apply containsList_append_right
    rw [hrsec, String.data_append]
    apply containsList_append_left
    decide

/-- The C7 witness input: one track point, one named waypoint, one named
route with one point. -/
def gpxFull : Gpx :=
  { tracks := [{ name := some "Main"
                 segments := [{ points :=
                   [{ latitude := 7, longitude := 8, elevation := none,
                      time := some ⟨"2025-05-10T09:30:00"⟩, description := none }] }] }]
    waypoints := [{ name := some "Cafe", latitude := 7, longitude := 8,
                    elevation := some 60, time := none, description := some "Espresso stop" }]
    routes := [{ name := some "Alternate"
                 points := [{ latitude := 9, longitude := 10, elevation := none,
                              time := none, description := some "Shortcut" }] }] }

/-- Witness for C7 on `gpxFull`. -/
theorem map_from_tracks_only_witness :
    generate_map gpxFull
      = generate_map { tracks := gpxFull.tracks, waypoints := [], routes := [] }
    ∧ extractCoordinates gpxFull
        = extractCoordinates { tracks := gpxFull.tracks, waypoints := [], routes := [] }
    ∧ strContains (convert_gpx_to_text gpxFull) "Waypoints:" = true
    ∧ strContains (convert_gpx_to_text gpxFull) "Routes:" = true :=
  map_from_tracks_only gpxFull (by decide) (by decide)

/-- C2 counterexample: on a map document with no `<body>` marker, the
assemble step does not fail — Python `str.replace` finds nothing to replace
and `build_output_html` returns the document unchanged, with the narrative
block (heading `Walk Summary`) silently dropped.  No `AssemblyError` (or any
error) exists anywhere in the source. -/
theorem build_output_html_no_marker_counterexample :
    build_output_html "<html><head></head><h1>Map</h1></html>" "A lovely stroll." []
      = "<html><head></head><h1>Map</h1></html>"
    ∧ strContains
        (build_output_html "<html><head></head><h1>Map</h1></html>" "A lovely stroll." [])
        "Walk Summary" = false := by
  exact ⟨rfl, rfl⟩

/-- C2 (amended): when the `<body>` marker does not occur in the map
document, `build_output_html` raises nothing and returns the map document
unchanged — the narrative and images are silently dropped. -/
theorem build_output_html_no_marker_unchanged (m j : String)
    (parts : List (Option (List Nat))) (h : strContains m "<body>" = false) :
    build_output_html m j parts = m :=
  pyReplace_no_occ m "<body>"
    ("<body>" ++ journalHtml j ++ htmlImage parts) h

/-- Witness for the amended C2 at a concrete marker-free document. -/
theorem build_output_html_no_marker_unchanged_witness :
    strContains "<div>plain page</div>" "<body>" = false
    ∧ build_output_html "<div>plain page</div>" "Journal." [] = "<div>plain page</div>" :=
  ⟨by decide,
   build_output_html_no_marker_unchanged "<div>plain page</div>" "Journal." [] (by decide)⟩

set_option maxRecDepth 4000 in
/-- C6 counterexample: on a map document in which `<body>` occurs twice,
Python `str.replace` substitutes every occurrence, so the narrative block is
injected at both markers and the document tail after the first marker is not
left unchanged — the output differs from the single-injection result the
claim describes for every map document. -/
theorem build_output_html_double_marker_counterexample :
    build_output_html "<body>MAP<body>" "J" []
      = "<body>" ++ journalHtml "J" ++ "MAP" ++ ("<body>" ++ journalHtml "J")
    ∧ build_output_html "<body>MAP<body>" "J" []
      ≠ "<body>" ++ journalHtml "J" ++ "MAP<body>" := by
  constructor
  · decide
  · decide

/-- C6 (amended): for every map document in which the `<body>` marker occurs
exactly once — written `pre ++ "<body>" ++ suf` with neither side containing
the marker — the assembled output is the prefix, the marker, the narrative
block, one base64 image block per payload-carrying part in adapter order
(`htmlImage`, which is empty for an empty or payload-free part list, so with
zero images the narrative block is followed directly by the map content),
and then the untouched remainder of the map document. -/
theorem build_output_html_single_marker_splice (pre suf j : String)
    (parts : List (Option (List Nat)))
    (hpre : strContains pre "<body>" = false)
    (hsuf : strContains suf "<body>" = false) :
    build_output_html (pre ++ "<body>" ++ suf) j parts
      = pre ++ "<body>" ++ journalHtml j ++ htmlImage parts ++ suf := by
  unfold build_output_html
  rw [pyReplace_body_splice pre suf ("<body>" ++ journalHtml j ++ htmlImage parts) hpre]
  rw [pyReplace_no_occ suf "<body>" ("<body>" ++ journalHtml j ++ htmlImage parts) hsuf]
  apply strEqOfData
  simp [String.data_append, List.append_assoc]

/-- Witness for the amended C6 at a concrete document, with one
payload-carrying image part and one empty part. -/
theorem build_output_html_single_marker_splice_witness :
    strContains "<html><head><title>T</title></head>" "<body>" = false
    ∧ strContains "<h1>map</h1></body></html>" "<body>" = false
    ∧ build_output_html
        ("<html><head><title>T</title></head>" ++ "<body>" ++ "<h1>map</h1></body></html>")
        "We walked." [some [77, 97], none]
      = "<html><head><title>T</title></head>" ++ "<body>" ++ journalHtml "We walked."
        ++ htmlImage [some [77, 97], none] ++ "<h1>map</h1></body></html>" :=
  ⟨by decide, by decide,
   build_output_html_single_marker_splice "<html><head><title>T</title></head>"
     "<h1>map</h1></body></html>" "We walked." [some [77, 97], none]
     (by decide) (by decide)⟩
